import Mathlib

/-!
Verification of the Hashicorp Vault KMS client (`cmd/crypto/vault.go`).

The Go source is shallowly embedded: Go multi-value returns `(T, error)`
become pairs `Option T × Option GoError`, Go `nil` pointers become `none`,
external collaborators (the remote Vault service, TLS setup, base64
decoding from the standard library) are passed in as explicit oracle
arguments, and a Go panic (nil dereference or failed type assertion) is
modelled as the `none` case of an outer `Option` or a dedicated
constructor.  Channel-driven code (`renewSecret`'s two-channel select and
the background renewal goroutine) is modelled by an explicit list of
delivered events per blocking wait, processed in delivery order.
-/

namespace VaultCrypto

/-- Go `error` values are modelled by their message strings. -/
abbrev GoError := String

/-- The package-level `ErrKMSAuthLogin` error from vault.go. -/
def ErrKMSAuthLogin : GoError := "Vault service did not return auth info"

/-- Embeds the Go struct `VaultKey` (encryption key-ring name and version). -/
structure VaultKey where
  name : String
  version : Int
deriving DecidableEq, Repr

/-- Embeds the Go struct `VaultAppRole` (AppRole id and secret). -/
structure VaultAppRole where
  id : String
  secret : String
deriving DecidableEq, Repr

/-- Embeds the Go struct `VaultAuth` (authentication type and AppRole block). -/
structure VaultAuth where
  type : String
  appRole : VaultAppRole
deriving DecidableEq, Repr

/-- Embeds the Go struct `VaultConfig`.  The Go field `Namespace` is spelt
`nspace` here because `namespace` is a Lean keyword. -/
structure VaultConfig where
  endpoint : String
  capath : String
  auth : VaultAuth
  key : VaultKey
  nspace : String
deriving DecidableEq, Repr

/-- The package-level `emptyVaultConfig` value (the Go zero value of `VaultConfig`). -/
def emptyVaultConfig : VaultConfig :=
  { endpoint := ""
    capath := ""
    auth := { type := "", appRole := { id := "", secret := "" } }
    key := { name := "", version := 0 }
    nspace := "" }

/-- Embeds `(*VaultConfig).IsEmpty`: structural equality with the zero value. -/
def VaultConfig.IsEmpty (v : VaultConfig) : Bool :=
  decide (v = emptyVaultConfig)

/-- Embeds `(*VaultConfig).Verify`.  Returns `none` for a nil Go error and
`some msg` for a non-nil error with message `msg`.  The branch structure and
messages follow the Go `switch` statement literally. -/
def VaultConfig.Verify (v : VaultConfig) : Option GoError :=
  if v.IsEmpty then
    none
  else if v.endpoint = "" then
    some ("crypto: missing hashicorp vault endpoint")
  else if v.auth.type.toLower ≠ "approle" then
    some ("crypto: invalid hashicorp vault authentication type: " ++ v.auth.type ++ " is not supported")
  else if v.auth.appRole.id = "" then
    some ("crypto: missing hashicorp vault AppRole ID")
  else if v.auth.appRole.secret = "" then
    some ("crypto: missing hashicorp vault AppSecret ID")
  else if v.key.name = "" then
    some ("crypto: missing hashicorp vault key name")
  else if v.key.version < 0 then
    some ("crypto: invalid hashicorp vault key version: The key version must not be negative")
  else
    none

/-- Modelled from the spec: the documented ordered list of validation rules
for a non-empty configuration, each paired with its descriptive error.
Used only to compare `Verify` against the spec's "first violated rule"
formulation. -/
def verifyRuleList (v : VaultConfig) : List (Bool × GoError) :=
  [ (decide (v.endpoint = ""), "crypto: missing hashicorp vault endpoint"),
    (decide (v.auth.type.toLower ≠ "approle"),
      "crypto: invalid hashicorp vault authentication type: " ++ v.auth.type ++ " is not supported"),
    (decide (v.auth.appRole.id = ""), "crypto: missing hashicorp vault AppRole ID"),
    (decide (v.auth.appRole.secret = ""), "crypto: missing hashicorp vault AppSecret ID"),
    (decide (v.key.name = ""), "crypto: missing hashicorp vault key name"),
    (decide (v.key.version < 0),
      "crypto: invalid hashicorp vault key version: The key version must not be negative") ]

/-- Modelled from the spec: the first violated rule of `verifyRuleList`,
or `none` when no rule is violated. -/
def firstViolatedRule (v : VaultConfig) : Option GoError :=
  ((verifyRuleList v).find? (fun r => r.1)).map (fun r => r.2)

/-- Embeds the `Auth` section of a `vault.Secret` (only the fields the
client reads: `ClientToken` and `LeaseDuration`). -/
structure SecretAuth where
  clientToken : String
  leaseDuration : Int
deriving DecidableEq, Repr

/-- A Go `interface\x7b\x7d` value stored in a secret's `Data` map: either a
string (the only dynamic type the client asserts) or anything else. -/
inductive GoValue where
  | str (s : String)
  | other
deriving DecidableEq, Repr

/-- Embeds `vault.Secret` (only the fields the client reads): a possibly-nil
`Auth` section and the `Data` map, modelled as an association list. -/
structure Secret where
  auth : Option SecretAuth
  data : List (String × GoValue)
deriving DecidableEq, Repr

/-- Embeds the Go type assertion `value.(string)` applied to a map lookup:
`none` models the panic on a missing key or a non-string dynamic type. -/
def goStringAssert : Option GoValue → Option String
  | some (.str s) => some s
  | _ => none

/-- Embeds `(*vaultService).login`.  The argument is the raw result of the
single `client.Logical().Write("auth/approle/login", payload)` call, in Go
result shape `(secret, err)`; the return value has the same shape. -/
def login (wr : Option Secret × Option GoError) : Option Secret × Option GoError :=
  match wr with
  | (_, some e) => (none, some e)
  | (none, none) => (none, some ErrKMSAuthLogin)
  | (some s, none) =>
    if s.auth.isNone then (none, some ErrKMSAuthLogin)
    else (some s, none)

/-- One event delivered to `renewSecret`'s two-channel select: either a
value from `renewer.DoneCh()` (an error that may be nil) or a value from
`renewer.RenewCh()` (a `RenewOutput` whose `Secret` pointer may be nil). -/
inductive RenewEvent where
  | done (err : Option GoError)
  | renew (secret : Option Secret)
deriving DecidableEq, Repr

/-- Outcome of the blocking `renewSecret` call: `critical` models the
process abort in `logger.CriticalIf` when `NewRenewer` fails, `blocked`
models the select waiting forever because no further event is delivered,
and `returns s e` models the Go return `(s, e)`. -/
inductive RenewOutcome where
  | critical
  | blocked
  | returns (secret : Option Secret) (err : Option GoError)
deriving DecidableEq, Repr

/-- True exactly when the outcome is a Go return carrying a non-nil error. -/
def RenewOutcome.isErrorReturn : RenewOutcome → Bool
  | .returns _ (some _) => true
  | _ => false

/-- Embeds the `for \x7b select ... \x7d` loop of `renewSecret`, processing
delivered events in order.  A done event with a non-nil error returns that
error; a done event with a nil error matches the `if err != nil` guard
failing, so the loop continues; a renew event returns `ErrKMSAuthLogin`
when the secret or its auth section is nil and the renewed secret
otherwise.  An exhausted event list leaves the select blocked. -/
def renewLoop : List RenewEvent → RenewOutcome
  | [] => .blocked
  | .done (some e) :: _ => .returns none (some e)
  | .done none :: rest => renewLoop rest
  | .renew none :: _ => .returns none (some ErrKMSAuthLogin)
  | .renew (some s) :: _ =>
    if s.auth.isNone then .returns none (some ErrKMSAuthLogin)
    else .returns (some s) none

/-- Embeds `(*vaultService).renewSecret`: a failing `NewRenewer` call hits
`logger.CriticalIf` (process abort); otherwise the event loop runs. -/
def renewSecret (newRenewerErr : Option GoError) (events : List RenewEvent) : RenewOutcome :=
  match newRenewerErr with
  | some _ => .critical
  | none => renewLoop events

/-- The token and lease duration stored on the service by `SetToken` and
the `leaseDuration` assignment — the shared state read by key operations. -/
structure ClientState where
  token : String
  leaseDuration : Int
deriving DecidableEq, Repr

/-- State carried across iterations of the background renewal goroutine:
the current secret and the stored client credential. -/
structure LoopState where
  secret : Secret
  client : ClientState
deriving DecidableEq, Repr

/-- The oracle inputs consumed by one iteration of the background loop:
the `NewRenewer` result and delivered events for this iteration's
`renewSecret` call, and the raw login write result should login be
attempted. -/
structure LoopEnv where
  renewerErr : Option GoError
  events : List RenewEvent
  loginWrite : Option Secret × Option GoError
deriving DecidableEq, Repr

/-- Result of one iteration of the background goroutine's `for` body. -/
inductive StepResult where
  | critical
  | blocked
  | panicked
  | sleptRetry (st : LoopState)
  | updated (st : LoopState)
deriving DecidableEq, Repr

/-- Go `1 * time.Minute` in nanoseconds, the fixed retry delay. -/
def minuteNs : Int := 60000000000

/-- Embeds the tail of the loop body from `secret = newSecret` onwards,
given the Go pair `(newSecret, err)`: a non-nil error hits the
`time.Sleep(1 * time.Minute); continue` path leaving the state unchanged;
otherwise the token and lease duration are stored
(`v.client.SetToken(secret.Auth.ClientToken)`), with `panicked` modelling
the nil dereference were `newSecret` or its auth section nil there. -/
def applyNewSecret (r : Option Secret × Option GoError) (st : LoopState) : StepResult :=
  match r with
  | (_, some _) => .sleptRetry st
  | (none, none) => .panicked
  | (some ns, none) =>
    match ns.auth with
    | none => .panicked
    | some a => .updated { secret := ns, client := { token := a.clientToken, leaseDuration := a.leaseDuration } }

/-- Embeds one iteration of the background goroutine in `authenticate`:
renew the secret (blocking); on a renewal error fall back to `login`;
then store the new credential or sleep and retry. -/
def loopIter (env : LoopEnv) (st : LoopState) : StepResult :=
  match renewSecret env.renewerErr env.events with
  | .critical => .critical
  | .blocked => .blocked
  | .returns s0 e0 =>
    match e0 with
    | some _ => applyNewSecret (login env.loginWrite) st
    | none => applyNewSecret (s0, none) st

/-- Observable action of one background-loop iteration: a fixed-delay
sleep (nanoseconds) or a store of the shared token and lease duration. -/
inductive LoopAction where
  | sleep (d : Int)
  | setCredential (token : String) (lease : Int)
deriving DecidableEq, Repr

/-- Result of running finitely many iterations of the infinite loop:
`running st` means the loop is still going with state `st` (it has no
normal exit), or it is stuck inside an iteration. -/
inductive RunResult where
  | running (st : LoopState)
  | criticalStop
  | blockedStop
  | panicStop
deriving DecidableEq, Repr

/-- Runs the background loop through one `LoopEnv` per iteration,
collecting the observable actions.  The Go loop has no `break` or
`return`, so consuming every environment leaves the loop `running`. -/
def loopRun : List LoopEnv → LoopState → List LoopAction × RunResult
  | [], st => ([], .running st)
  | env :: rest, st =>
    match loopIter env st with
    | .critical => ([], .criticalStop)
    | .blocked => ([], .blockedStop)
    | .panicked => ([], .panicStop)
    | .sleptRetry st' =>
      let r := loopRun rest st'
      (.sleep minuteNs :: r.1, r.2)
    | .updated st' =>
      let r := loopRun rest st'
      (.setCredential st'.client.token st'.client.leaseDuration :: r.1, r.2)

/-- True when this iteration's `renewSecret` call returns a non-nil error. -/
def envRenewFails (e : LoopEnv) : Bool :=
  (renewSecret e.renewerErr e.events).isErrorReturn

/-- True when this iteration's `login` call (if reached) returns a non-nil error. -/
def envLoginFails (e : LoopEnv) : Bool :=
  (login e.loginWrite).2.isSome

/-- Embeds Go's `copy(dst, src)` for byte slices as used on the fresh
32-byte array: copies `min (length src) (length dst)` bytes from offset
zero, leaving the rest of `dst` unchanged. -/
def goCopy (dst src : List Nat) : List Nat :=
  src.take dst.length ++ dst.drop (min src.length dst.length)

/-- The zero value of Go's `[32]byte`. -/
def zeroKey32 : List Nat := List.replicate 32 0

/-- The named return values of `GenerateKey`: the 32-byte key, the sealed
key bytes (the ciphertext string, empty when the Go slice is nil), and the
error. -/
structure GenerateKeyReturn where
  key : List Nat
  sealedKey : String
  err : Option GoError
deriving DecidableEq, Repr

/-- The named return values of `UnsealKey`. -/
structure UnsealKeyReturn where
  key : List Nat
  err : Option GoError
deriving DecidableEq, Repr

/-- Embeds `(*vaultService).GenerateKey`.  `b64decode` is the external
`base64.StdEncoding.DecodeString` in Go result shape; `wr` is the raw
result of the single `client.Logical().Write("/transit/datakey/plaintext/…")`
call this invocation makes.  The first component of the result counts the
remote write requests issued (one on every path); `none` in the second
component models a panic (nil secret dereference or failed type
assertion). -/
def generateKey (b64decode : String → List Nat × Option GoError)
    (wr : Option Secret × Option GoError) : Nat × Option GenerateKeyReturn :=
  match wr with
  | (_, some e) => (1, some { key := zeroKey32, sealedKey := "", err := some e })
  | (none, none) => (1, none)
  | (some s, none) =>
    match goStringAssert (List.lookup "ciphertext" s.data) with
    | none => (1, none)
    | some sealKey =>
      match goStringAssert (List.lookup "plaintext" s.data) with
      | none => (1, none)
      | some pt =>
        match b64decode pt with
        | (_, some e) => (1, some { key := zeroKey32, sealedKey := "", err := some e })
        | (plainKey, none) =>
          (1, some { key := goCopy zeroKey32 plainKey, sealedKey := sealKey, err := none })

/-- Embeds `(*vaultService).UnsealKey`, same conventions as `generateKey`;
`wr` is the raw result of the single
`client.Logical().Write("/transit/decrypt/…")` call. -/
def unsealKey (b64decode : String → List Nat × Option GoError)
    (wr : Option Secret × Option GoError) : Nat × Option UnsealKeyReturn :=
  match wr with
  | (_, some e) => (1, some { key := zeroKey32, err := some e })
  | (none, none) => (1, none)
  | (some s, none) =>
    match goStringAssert (List.lookup "plaintext" s.data) with
    | none => (1, none)
    | some pt =>
      match b64decode pt with
      | (_, some e) => (1, some { key := zeroKey32, err := some e })
      | (plainKey, none) =>
        (1, some { key := goCopy zeroKey32 plainKey, err := none })

/-- Oracle inputs consumed by `NewVault` after validation: the
`ConfigureTLS` and `vault.NewClient` results and the login write result. -/
structure NewVaultEnv where
  tlsErr : Option GoError
  clientErr : Option GoError
  loginWrite : Option Secret × Option GoError
deriving DecidableEq, Repr

/-- Result of `NewVault` / `authenticate`: a returned error, a usable
client whose stored credential is `st`, or a panic. -/
inductive NewVaultResult where
  | err (e : GoError)
  | ok (st : ClientState)
  | panicked
deriving DecidableEq, Repr

/-- Embeds the synchronous part of `(*vaultService).authenticate`: login,
then `SetToken` and the lease-duration store (the spawned background
goroutine is modelled separately by `loopIter`/`loopRun`). -/
def authenticate (lw : Option Secret × Option GoError) : NewVaultResult :=
  match login lw with
  | (_, some e) => .err e
  | (some s, none) =>
    match s.auth with
    | some a => .ok { token := a.clientToken, leaseDuration := a.leaseDuration }
    | none => .panicked
  | (none, none) => .panicked

/-- Embeds `NewVault`: reject the empty configuration, run `Verify`,
configure TLS, build the client, set the namespace (no observable effect
here) and authenticate. -/
def newVault (env : NewVaultEnv) (config : VaultConfig) : NewVaultResult :=
  if config.IsEmpty then
    .err ("crypto: the hashicorp vault configuration must not be empty")
  else
    match config.Verify with
    | some e => .err e
    | none =>
      match env.tlsErr with
      | some e => .err e
      | none =>
        match env.clientErr with
        | some e => .err e
        | none => authenticate env.loginWrite

/-- Fixture: a non-empty configuration whose first violated rule is the
missing AppRole ID. -/
def cfgMissingRoleID : VaultConfig :=
  { endpoint := "https://kms.example"
    capath := ""
    auth := { type := "AppRole", appRole := { id := "", secret := "s1" } }
    key := { name := "master", version := 0 }
    nspace := "" }

/-- Fixture: a base64-decode oracle that decodes every string to three bytes. -/
def decThreeBytes : String → List Nat × Option GoError :=
  fun _ => ([1, 2, 3], none)

/-- Fixture: a well-formed key-operation response secret. -/
def respWellFormed : Secret :=
  { auth := none, data := [("ciphertext", .str "CT"), ("plaintext", .str "PT")] }

/-- Fixture: a response secret with an empty data map. -/
def respNoData : Secret :=
  { auth := none, data := [] }

/-- Fixture: a response secret whose plaintext field is not a string. -/
def respBadPlaintext : Secret :=
  { auth := none, data := [("ciphertext", .str "CT"), ("plaintext", .other)] }

/-- Fixture: a loop iteration in which renewal reports an error and the
fallback login write fails. -/
def envAllFail : LoopEnv :=
  { renewerErr := none
    events := [.done (some "renew failed")]
    loginWrite := (none, some "vault unreachable") }

/-- Fixture: an initial background-loop state. -/
def st0 : LoopState :=
  { secret := { auth := some { clientToken := "t0", leaseDuration := 300 }, data := [] }
    client := { token := "t0", leaseDuration := 300 } }

/-- Fixture: a `NewVault` environment in which no external step fails. -/
def envNoErr : NewVaultEnv :=
  { tlsErr := none, clientErr := none, loginWrite := (none, none) }

/-- C2: for every non-empty configuration, `Verify` returns exactly the
descriptive error of the first violated rule in the documented order
(endpoint non-empty; auth type case-insensitively "approle"; AppRole ID
non-empty; AppRole secret non-empty; key name non-empty; key version ≥ 0),
and `none` when no rule is violated. -/
theorem verify_reports_first_violated_rule (v : VaultConfig)
    (h : v.IsEmpty = false) :
    v.Verify = firstViolatedRule v := by
  unfold VaultConfig.Verify firstViolatedRule verifyRuleList
  rw [h]
  by_cases h1 : v.endpoint = "" <;>
  by_cases h2 : v.auth.type.toLower = "approle" <;>
  by_cases h3 : v.auth.appRole.id = "" <;>
  by_cases h4 : v.auth.appRole.secret = "" <;>
  by_cases h5 : v.key.name = "" <;>
  by_cases h6 : v.key.version < 0 <;>
  simp [h1, h2, h3, h4, h5, h6, List.find?]

/-- Witness for C2 at a concrete non-empty configuration whose first
violated rule is the missing AppRole ID. -/
theorem verify_reports_first_violated_rule_witness :
    cfgMissingRoleID.IsEmpty = false ∧
      cfgMissingRoleID.Verify = firstViolatedRule cfgMissingRoleID :=
  ⟨by decide, verify_reports_first_violated_rule cfgMissingRoleID (by decide)⟩

/-- C3: every configuration equal to the all-zero value passes `Verify`
with no error (an absent KMS integration is valid). -/
theorem verify_accepts_empty_config (v : VaultConfig)
    (h : v.IsEmpty = true) :
    v.Verify = none := by
  unfold VaultConfig.Verify
  rw [h]
  rfl

/-- Witness for C3 at the zero configuration itself. -/
theorem verify_accepts_empty_config_witness :
    emptyVaultConfig.IsEmpty = true ∧ emptyVaultConfig.Verify = none :=
  ⟨by decide, verify_accepts_empty_config emptyVaultConfig (by decide)⟩

/-- C1 counterexample: after a done event carrying a nil error the blocking
renewal call does not return at all — the select keeps waiting with no
further event to serve it — so it does not return a failure as the claim
states. -/
theorem renew_done_nil_blocks_counterexample :
    renewSecret none [RenewEvent.done none] = RenewOutcome.blocked ∧
      (renewSecret none [RenewEvent.done none]).isErrorReturn = false :=
  ⟨rfl, rfl⟩

/-- C1 (amended): a done event carrying an error makes the renewal call
return that failure; a done event without an error is never treated as
success — it is skipped and the loop keeps waiting for further events,
blocking when none arrive, instead of returning to trigger re-login. -/
theorem renew_done_event_behavior (e : GoError) (evs : List RenewEvent) :
    renewSecret none (RenewEvent.done (some e) :: evs) =
        RenewOutcome.returns none (some e) ∧
      renewSecret none (RenewEvent.done none :: evs) = renewSecret none evs ∧
      renewSecret none [] = RenewOutcome.blocked :=
  ⟨rfl, rfl, rfl⟩

/-- C4: on a successful remote response, `GenerateKey` and `UnsealKey`
return the 32-byte buffer obtained by copying the base64-decoded plaintext
in from offset zero; when the decoded plaintext has fewer than 32 bytes,
its bytes fill the front of the buffer and the rest stays zero. -/
theorem generated_key_is_zero_padded_plaintext
    (b64decode : String → List Nat × Option GoError) (s : Secret)
    (ct pt : String) (p : List Nat)
    (hct : goStringAssert (List.lookup "ciphertext" s.data) = some ct)
    (hpt : goStringAssert (List.lookup "plaintext" s.data) = some pt)
    (hdec : b64decode pt = (p, none))
    (hlen : p.length < 32) :
    generateKey b64decode (some s, none) =
        (1, some { key := goCopy zeroKey32 p, sealedKey := ct, err := none }) ∧
      unsealKey b64decode (some s, none) =
        (1, some { key := goCopy zeroKey32 p, err := none }) ∧
      (goCopy zeroKey32 p).length = 32 ∧
      (goCopy zeroKey32 p).take p.length = p ∧
      (goCopy zeroKey32 p).drop p.length = List.replicate (32 - p.length) (0 : Nat) := by
  have hle : p.length ≤ 32 := Nat.le_of_lt hlen
  have hg : goCopy zeroKey32 p = p ++ List.replicate (32 - p.length) (0 : Nat) := by
    unfold goCopy zeroKey32
    rw [List.length_replicate, List.take_of_length_le hle,
      Nat.min_eq_left hle, List.drop_replicate]
  refine ⟨?_, ?_, ?_, ?_, ?_⟩
  · simp [generateKey, hct, hpt, hdec]
  · simp [unsealKey, hpt, hdec]
  · rw [hg]; simp; omega
  · rw [hg]; exact List.take_left p _
  · rw [hg]; exact List.drop_left p _

/-- Witness for C4 with a three-byte decoded plaintext. -/
theorem generated_key_is_zero_padded_plaintext_witness :
    generateKey decThreeBytes (some respWellFormed, none) =
        (1, some { key := goCopy zeroKey32 [1, 2, 3], sealedKey := "CT", err := none }) ∧
      (goCopy zeroKey32 [1, 2, 3]).take 3 = [1, 2, 3] ∧
      (goCopy zeroKey32 [1, 2, 3]).drop 3 = List.replicate 29 (0 : Nat) := by
  have h := generated_key_is_zero_padded_plaintext decThreeBytes respWellFormed
    "CT" "PT" [1, 2, 3] rfl rfl rfl (by decide)
  exact ⟨h.1, h.2.2.2.1, h.2.2.2.2⟩

/-- C5: when the remote write fails, both key operations issue exactly one
remote request, surface that error unchanged, and leave the key buffer
all-zero and the sealed key empty. -/
theorem remote_failure_surfaced_directly
    (b64decode : String → List Nat × Option GoError)
    (ms : Option Secret) (e : GoError) :
    generateKey b64decode (ms, some e) =
        (1, some { key := zeroKey32, sealedKey := "", err := some e }) ∧
      unsealKey b64decode (ms, some e) =
        (1, some { key := zeroKey32, err := some e }) ∧
      zeroKey32 = List.replicate 32 (0 : Nat) := by
  cases ms <;> exact ⟨rfl, rfl, rfl⟩

/-- Helper: a non-nil error in the `(newSecret, err)` pair always takes
the sleep-and-retry branch, leaving the loop state unchanged. -/
theorem applyNewSecret_err (ms : Option Secret) (e : GoError) (st : LoopState) :
    applyNewSecret (ms, some e) st = StepResult.sleptRetry st := by
  cases ms <;> rfl

/-- C6: when every iteration's renewal fails and its fallback login also
fails, the background loop sleeps the fixed one-minute backoff each
iteration, never terminates and never changes the stored credential; and
in general the loop stores a new token and lease duration only after a
successful renewal or a successful login. -/
theorem backoff_loop_retries_forever (envs : List LoopEnv) (st : LoopState)
    (h : ∀ e ∈ envs, envRenewFails e = true ∧ envLoginFails e = true) :
    loopRun envs st =
        (List.replicate envs.length (LoopAction.sleep minuteNs), RunResult.running st) ∧
      ∀ (env : LoopEnv) (s1 s2 : LoopState), loopIter env s1 = StepResult.updated s2 →
        (∃ sec, renewSecret env.renewerErr env.events = RenewOutcome.returns (some sec) none) ∨
          (login env.loginWrite).2 = none := by
  constructor
  · induction envs generalizing st with
    | nil => rfl
    | cons env rest ih =>
      obtain ⟨h1, h2⟩ := h env (List.mem_cons_self env rest)
      unfold envRenewFails at h1
      unfold envLoginFails at h2
      have hiter : loopIter env st = StepResult.sleptRetry st := by
        rcases heq : renewSecret env.renewerErr env.events with _ | _ | ⟨s0, e0⟩
        · rw [heq] at h1
          exact absurd h1 (by simp [RenewOutcome.isErrorReturn])
        · rw [heq] at h1
          exact absurd h1 (by simp [RenewOutcome.isErrorReturn])
        · rw [heq] at h1
          cases e0 with
          | none => exact absurd h1 (by simp [RenewOutcome.isErrorReturn])
          | some e1 =>
            rcases hlw : login env.loginWrite with ⟨a, b⟩
            rw [hlw] at h2
            cases b with
            | none => exact absurd h2 (by simp)
            | some be =>
              simp only [loopIter, heq, hlw]
              exact applyNewSecret_err a be st
      have hrest : ∀ e ∈ rest, envRenewFails e = true ∧ envLoginFails e = true :=
        fun e he => h e (List.mem_cons_of_mem env he)
      simp [loopRun, hiter, ih st hrest, List.replicate_succ]
  · intro env s1 s2 hup
    unfold loopIter at hup
    rcases heq : renewSecret env.renewerErr env.events with _ | _ | ⟨s0, e0⟩ <;>
      rw [heq] at hup
    · exact absurd hup (by simp)
    · exact absurd hup (by simp)
    · cases e0 with
      | some e1 =>
        rcases hlw : login env.loginWrite with ⟨a, b⟩
        rw [hlw] at hup
        cases b with
        | none => exact Or.inr rfl
        | some be =>
          rw [applyNewSecret_err a be s1] at hup
          exact absurd hup (by simp)
      | none =>
        cases s0 with
        | none => exact absurd hup (by simp [applyNewSecret])
        | some sec => exact Or.inl ⟨sec, rfl⟩

/-- Witness for C6: two consecutive all-failing iterations sleep one
minute each and leave the state unchanged. -/
theorem backoff_loop_retries_forever_witness :
    loopRun [envAllFail, envAllFail] st0 =
      ([LoopAction.sleep minuteNs, LoopAction.sleep minuteNs], RunResult.running st0) :=
  (backoff_loop_retries_forever [envAllFail, envAllFail] st0 (by decide)).1

/-- C7: a delivered renewal with a nil secret, or with a non-null secret
whose auth section is nil, makes the renewal wait return the
authentication error `ErrKMSAuthLogin` rather than crash; and any renewal
error makes the background loop fall back to the login call. -/
theorem malformed_renewal_yields_auth_error (evs : List RenewEvent) (s : Secret)
    (hs : s.auth = none) :
    renewSecret none (RenewEvent.renew none :: evs) =
        RenewOutcome.returns none (some ErrKMSAuthLogin) ∧
      renewSecret none (RenewEvent.renew (some s) :: evs) =
        RenewOutcome.returns none (some ErrKMSAuthLogin) ∧
      ∀ (env : LoopEnv) (st : LoopState) (e : GoError),
        renewSecret env.renewerErr env.events = RenewOutcome.returns none (some e) →
          loopIter env st = applyNewSecret (login env.loginWrite) st := by
  refine ⟨rfl, ?_, ?_⟩
  · simp [renewSecret, renewLoop, hs]
  · intro env st e hr
    unfold loopIter
    rw [hr]

/-- Witness for C7 at concrete malformed renewal events. -/
theorem malformed_renewal_yields_auth_error_witness :
    renewSecret none [RenewEvent.renew none] =
        RenewOutcome.returns none (some ErrKMSAuthLogin) ∧
      renewSecret none [RenewEvent.renew (some respNoData)] =
        RenewOutcome.returns none (some ErrKMSAuthLogin) :=
  ⟨(malformed_renewal_yields_auth_error [] respNoData rfl).1,
    (malformed_renewal_yields_auth_error [] respNoData rfl).2.1⟩

/-- C9: `NewVault` rejects the all-zero configuration with a dedicated
error even though `Verify` accepts that same configuration. -/
theorem new_vault_rejects_empty_config (env : NewVaultEnv) (config : VaultConfig)
    (h : config.IsEmpty = true) :
    newVault env config =
        NewVaultResult.err ("crypto: the hashicorp vault configuration must not be empty") ∧
      config.Verify = none := by
  constructor
  · simp [newVault, h]
  · simp [VaultConfig.Verify, h]

/-- Witness for C9 at the zero configuration. -/
theorem new_vault_rejects_empty_config_witness :
    newVault envNoErr emptyVaultConfig =
        NewVaultResult.err ("crypto: the hashicorp vault configuration must not be empty") ∧
      emptyVaultConfig.Verify = none :=
  new_vault_rejects_empty_config envNoErr emptyVaultConfig (by decide)

/-- C10: a successful remote response lacking a string-valued "ciphertext"
field (GenerateKey) or "plaintext" field (GenerateKey, UnsealKey) makes
the operation panic on the unchecked type assertion instead of returning
an error to the caller. -/
theorem missing_response_field_panics
    (b64decode : String → List Nat × Option GoError)
    (s1 s2 s3 : Secret) (ct : String)
    (h1 : goStringAssert (List.lookup "ciphertext" s1.data) = none)
    (h2 : goStringAssert (List.lookup "ciphertext" s2.data) = some ct)
    (h3 : goStringAssert (List.lookup "plaintext" s2.data) = none)
    (h4 : goStringAssert (List.lookup "plaintext" s3.data) = none) :
    generateKey b64decode (some s1, none) = (1, none) ∧
      generateKey b64decode (some s2, none) = (1, none) ∧
      unsealKey b64decode (some s3, none) = (1, none) := by
  refine ⟨?_, ?_, ?_⟩
  · simp [generateKey, h1]
  · simp [generateKey, h2, h3]
  · simp [unsealKey, h4]

/-- Witness for C10 at concrete malformed responses. -/
theorem missing_response_field_panics_witness :
    generateKey decThreeBytes (some respNoData, none) = (1, none) ∧
      generateKey decThreeBytes (some respBadPlaintext, none) = (1, none) ∧
      unsealKey decThreeBytes (some respNoData, none) = (1, none) :=
  missing_response_field_panics decThreeBytes respNoData respBadPlaintext respNoData
    "CT" rfl rfl rfl rfl

end VaultCrypto
